import Mathlib

/-!
Shallow embedding of the StandX yield-calculator logic (`src/app.py`) and
verification of the specified properties of its three logic functions:
`calculate_points`, `calculate_roi` and `fetch_global_points`.

Modelling conventions:
* Python floats are modelled as exact rationals (ℚ).
* A Python `datetime` value is modelled as a rational number of days on the
  proleptic Gregorian day line: the integer part is the day ordinal (as in
  `date.toordinal()`), the fractional part is the time of day.
  `timedelta(days=d)` is addition of the integer `d`, and `datetime`
  comparison is the order on ℚ.  `datetime(2025, 12, 11)` — midnight at the
  start of 2025-12-11 — is the ordinal 739596 with zero fractional part.
* `datetime.now()` is an arbitrary parameter `current_date : ℚ`.
* `duration_days` in `calculate_roi` is a Python `int`, modelled as ℤ
  (`**` on a rational base with an integer exponent is `zpow`);
  the `range(days)` loop bound of `calculate_points` is modelled as ℕ
  (`range` of a non-positive number is empty).
* The HTTP fetch in `fetch_global_points` is modelled by an explicit outcome
  datatype: a successful 2xx JSON response carries the `data` list, where
  each item is the optional rational value of its `points` field; the three
  failure modes (timeout, non-2xx status raised by `raise_for_status`, and
  any other exception such as a malformed payload) are separate
  constructors, matching the `except` clauses of the source.
-/

namespace StandX

/-- Constant `BOOST_END_DATE = datetime(2025, 12, 11)` (src/app.py:18): midnight at
the start of 2025-12-11, i.e. proleptic Gregorian day ordinal 739596 with
zero time-of-day fraction. -/
def BOOST_END_DATE : ℚ := 739596

/-- Constant `RATE_BOOST = 1.5` (src/app.py:19). -/
def RATE_BOOST : ℚ := 3 / 2

/-- Constant `RATE_BASE = 1.2` (src/app.py:20). -/
def RATE_BASE : ℚ := 6 / 5

/-- Constant `BONUS_DAILY = 10` (src/app.py:21). -/
def BONUS_DAILY : ℚ := 10

/-- Constant `DAILY_INFLATION = 0.015` (src/app.py:22). -/
def DAILY_INFLATION : ℚ := 15 / 1000

/-- One row of the `daily_breakdown` list built by `calculate_points`
(src/app.py:179-186).  Field names translate the Chinese keys of the
source dictionary: 天数 `day`, 日期 `date`, 倍率 `rate`, 阶段 `period`,
当日积分 `daily_points`, 累计积分 `cumulative_points`. -/
structure DailyRecord where
  day : ℕ
  date : ℚ
  rate : ℚ
  period : String
  daily_points : ℚ
  cumulative_points : ℚ
  deriving Repr, DecidableEq

/-- The loop of `calculate_points` (src/app.py:160-186), by recursion on the
number of iterations already performed: `calcPointsLoop capital is_active
current_date n` is the state `(total_points, daily_breakdown)` after the
iterations `day = 0, …, n-1`. -/
def calcPointsLoop (capital : ℚ) (is_active : Bool) (current_date : ℚ) :
    ℕ → ℚ × List DailyRecord
  | 0 => (0, [])
  | n + 1 =>
    let prev := calcPointsLoop capital is_active current_date n
    let day_date := current_date + (n : ℚ)
    let rate := if day_date ≤ BOOST_END_DATE then RATE_BOOST else RATE_BASE
    let period := if day_date ≤ BOOST_END_DATE then "加速期" else "基础期"
    let daily_points :=
      if is_active then capital * rate + BONUS_DAILY else capital * rate
    let total_points := prev.1 + daily_points
    (total_points,
      prev.2 ++ [⟨n + 1, day_date, rate, period, daily_points, total_points⟩])

/-- Function `calculate_points` (src/app.py:151-188).  `datetime.now()` is passed in
as `current_date`; returns `(total_points, daily_breakdown)`. -/
def calculate_points (capital : ℚ) (days : ℕ) (is_active : Bool)
    (current_date : ℚ) : ℚ × List DailyRecord :=
  calcPointsLoop capital is_active current_date days

/-- The dictionary returned by `calculate_roi` (src/app.py:210-217). -/
structure RoiResult where
  est_value : ℚ
  net_profit : ℚ
  roi : ℚ
  apy : ℚ
  my_share : ℚ
  projected_global : ℚ
  deriving Repr, DecidableEq

/-- Function `calculate_roi` (src/app.py:190-217). -/
def calculate_roi (my_points : ℚ) (duration_days : ℤ)
    (capital fdv airdrop_pct current_global_points : ℚ) : RoiResult :=
  let projected_global :=
    current_global_points * (1 + DAILY_INFLATION) ^ duration_days
  let my_share :=
    if 0 < projected_global then my_points / projected_global else 0
  let est_value := fdv * (airdrop_pct / 100) * my_share
  let net_profit := est_value
  let roi := if 0 < capital then est_value / capital * 100 else 0
  let apy :=
    if 0 < duration_days then roi / (duration_days : ℚ) * 365 else 0
  ⟨est_value, net_profit, roi, apy, my_share * 100, projected_global⟩

/-- Outcome of the HTTP request made by `fetch_global_points`
(src/app.py:134-148).  `success data` is a 2xx response whose JSON body's
`data` list is `data`, each item reduced to the optional rational value of
its `points` field (`none` when the field is absent); `timeout` is
`requests.exceptions.Timeout`; `httpError` is the exception raised by
`raise_for_status` on a non-2xx status; `malformed` is any other exception
(e.g. an unparsable payload). -/
inductive FetchOutcome where
  | success (data : List (Option ℚ))
  | timeout
  | httpError
  | malformed
  deriving Repr, DecidableEq

/-- Function `fetch_global_points` (src/app.py:131-149), as a function of the fetch
outcome: on success, sum `float(item.get("points", 0)) / 1_000_000` over
the `data` items and multiply by 1.3; on any of the three exception paths,
return the fallback `500_000_000`. -/
def fetch_global_points : FetchOutcome → ℚ
  | .success data =>
    let top_200_sum := (data.map (fun item => item.getD 0 / 1000000)).sum
    let estimated_total := top_200_sum * (13 / 10)
    estimated_total
  | .timeout => 500000000
  | .httpError => 500000000
  | .malformed => 500000000

/-! ### Closed forms for the accrual loop -/

/-- The `datetime` of iteration `day`: `current_date + timedelta(days=day)`
(src/app.py:161). -/
def dayDate (current_date : ℚ) (day : ℕ) : ℚ := current_date + day

/-- The multiplier chosen at src/app.py:164-169 for iteration `day`. -/
def dayRate (current_date : ℚ) (day : ℕ) : ℚ :=
  if dayDate current_date day ≤ BOOST_END_DATE then RATE_BOOST else RATE_BASE

/-- The period label chosen at src/app.py:164-169 for iteration `day`. -/
def dayPeriod (current_date : ℚ) (day : ℕ) : String :=
  if dayDate current_date day ≤ BOOST_END_DATE then "加速期" else "基础期"

/-- The points accrued at iteration `day` (src/app.py:172-176). -/
def dayPoints (capital : ℚ) (is_active : Bool) (current_date : ℚ)
    (day : ℕ) : ℚ :=
  if is_active then capital * dayRate current_date day + BONUS_DAILY
  else capital * dayRate current_date day

/-- The running total after `k` iterations of the loop. -/
def cumPoints (capital : ℚ) (is_active : Bool) (current_date : ℚ)
    (k : ℕ) : ℚ :=
  ((List.range k).map (dayPoints capital is_active current_date)).sum

/-- The record appended at iteration `i` of the loop. -/
def recordAt (capital : ℚ) (is_active : Bool) (current_date : ℚ)
    (i : ℕ) : DailyRecord :=
  ⟨i + 1, dayDate current_date i, dayRate current_date i,
    dayPeriod current_date i, dayPoints capital is_active current_date i,
    cumPoints capital is_active current_date (i + 1)⟩

theorem cumPoints_succ (capital : ℚ) (is_active : Bool) (current_date : ℚ)
    (k : ℕ) :
    cumPoints capital is_active current_date (k + 1)
      = cumPoints capital is_active current_date k
        + dayPoints capital is_active current_date k := by
  simp [cumPoints, List.range_succ]

theorem calcPointsLoop_eq (capital : ℚ) (is_active : Bool)
    (current_date : ℚ) (n : ℕ) :
    calcPointsLoop capital is_active current_date n
      = (cumPoints capital is_active current_date n,
         (List.range n).map (recordAt capital is_active current_date)) := by
  induction n with
  | zero => simp [calcPointsLoop, cumPoints]
  | succ n ih =>
    rw [calcPointsLoop, ih]
    refine Prod.ext ?_ ?_
    · simp [cumPoints_succ, dayPoints, dayRate, dayDate]
    · simp only [List.range_succ, List.map_append, List.map_cons,
        List.map_nil]
      refine congrArg (_ ++ ·) ?_
      refine congrArg (fun r => [r]) ?_
      simp [recordAt, dayPoints, dayRate, dayPeriod, dayDate, cumPoints_succ]

theorem calculate_points_eq (capital : ℚ) (days : ℕ) (is_active : Bool)
    (current_date : ℚ) :
    calculate_points capital days is_active current_date
      = (cumPoints capital is_active current_date days,
         (List.range days).map (recordAt capital is_active current_date)) :=
  calcPointsLoop_eq capital is_active current_date days

theorem dayRate_nonneg (current_date : ℚ) (day : ℕ) :
    0 ≤ dayRate current_date day := by
  unfold dayRate
  split <;> norm_num [RATE_BOOST, RATE_BASE]

theorem dayPoints_nonneg (capital : ℚ) (is_active : Bool) (current_date : ℚ)
    (day : ℕ) (h : 0 ≤ capital) :
    0 ≤ dayPoints capital is_active current_date day := by
  have h1 : 0 ≤ capital * dayRate current_date day :=
    mul_nonneg h (dayRate_nonneg current_date day)
  have h2 : (0 : ℚ) ≤ BONUS_DAILY := by norm_num [BONUS_DAILY]
  unfold dayPoints
  split
  · linarith
  · exact h1

theorem cumPoints_mono (capital : ℚ) (is_active : Bool) (current_date : ℚ)
    (h : 0 ≤ capital) :
    Monotone (cumPoints capital is_active current_date) := by
  refine monotone_nat_of_le_succ fun k => ?_
  rw [cumPoints_succ]
  have := dayPoints_nonneg capital is_active current_date k h
  linarith

theorem schedule_getElem (capital : ℚ) (days : ℕ) (is_active : Bool)
    (current_date : ℚ) (i : ℕ)
    (h : i < (calculate_points capital days is_active current_date).2.length) :
    (calculate_points capital days is_active current_date).2[i]
      = recordAt capital is_active current_date i := by
  simp [calculate_points_eq]

theorem schedule_take_sum (capital : ℚ) (days : ℕ) (is_active : Bool)
    (current_date : ℚ) (i : ℕ) (hi : i < days) :
    (((calculate_points capital days is_active current_date).2.take (i + 1)).map
        DailyRecord.daily_points).sum
      = cumPoints capital is_active current_date (i + 1) := by
  rw [calculate_points_eq]
  rw [← List.map_take, List.take_range, Nat.min_eq_left (Nat.succ_le_of_lt hi),
    List.map_map]
  rfl

/-- C3: for every capital, duration `D ≥ 0` and active-bonus flag (and any
current date), `calculate_points` returns a schedule with exactly `D`
entries whose day indices are the contiguous run `1..D`, and duration `0`
yields the empty schedule with total `0`. -/
theorem C3_schedule_shape (capital : ℚ) (days : ℕ) (is_active : Bool)
    (current_date : ℚ) :
    (calculate_points capital days is_active current_date).2.length = days
    ∧ (calculate_points capital days is_active current_date).2.map
        DailyRecord.day = List.range' 1 days
    ∧ calculate_points capital 0 is_active current_date = (0, []) := by
  refine ⟨by rw [calculate_points_eq]; simp, ?_, rfl⟩
  rw [calculate_points_eq]
  simp only [List.map_map, List.range'_eq_map_range]
  exact List.map_congr_left fun a _ => Nat.add_comm a 1

/-- C4: in every schedule produced by `calculate_points`, the cumulative
points of the `i`-th entry equal the sum of the per-day points of the
entries up to it, the returned total equals the sum of all per-day points
(so the last cumulative value equals the total), and for non-negative
capital the cumulative field is non-decreasing along the schedule. -/
theorem C4_cumulative_running_sum (capital : ℚ) (days : ℕ) (is_active : Bool)
    (current_date : ℚ) :
    (∀ i (h : i < (calculate_points capital days is_active current_date).2.length),
        ((calculate_points capital days is_active current_date).2[i]).cumulative_points
          = (((calculate_points capital days is_active current_date).2.take
                (i + 1)).map DailyRecord.daily_points).sum)
    ∧ (calculate_points capital days is_active current_date).1
        = ((calculate_points capital days is_active current_date).2.map
            DailyRecord.daily_points).sum
    ∧ (0 ≤ capital →
        ∀ i j (hi : i < (calculate_points capital days is_active current_date).2.length)
            (hj : j < (calculate_points capital days is_active current_date).2.length),
          i ≤ j →
          ((calculate_points capital days is_active current_date).2[i]).cumulative_points
            ≤ ((calculate_points capital days is_active current_date).2[j]).cumulative_points) := by
  have hlen : (calculate_points capital days is_active current_date).2.length
      = days := by rw [calculate_points_eq]; simp
  refine ⟨?_, ?_, ?_⟩
  · intro i h
    rw [schedule_getElem capital days is_active current_date i h,
      schedule_take_sum capital days is_active current_date i (hlen ▸ h)]
    rfl
  · rw [calculate_points_eq]
    simp only [List.map_map]
    rfl
  · intro hcap i j hi hj hij
    rw [schedule_getElem capital days is_active current_date i hi,
      schedule_getElem capital days is_active current_date j hj]
    exact cumPoints_mono capital is_active current_date hcap
      (Nat.succ_le_succ hij)

theorem C4_cumulative_running_sum_witness :
    ((calculate_points 100 2 true 0).2.get ⟨1, by decide⟩).cumulative_points
      = (((calculate_points 100 2 true 0).2.take 2).map
          DailyRecord.daily_points).sum
    ∧ ((calculate_points 100 2 true 0).2.get ⟨0, by decide⟩).cumulative_points
        ≤ ((calculate_points 100 2 true 0).2.get ⟨1, by decide⟩).cumulative_points := by
  have h := C4_cumulative_running_sum 100 2 true 0
  exact ⟨h.1 1 (by decide),
    h.2.2 (by norm_num) 0 1 (by decide) (by decide) (by norm_num)⟩

/-- C6: for every capital, duration and current date, the schedule with the
active-bonus flag enabled assigns each day exactly `BONUS_DAILY = 10`
points more than the schedule with the flag disabled, with the day index,
date, multiplier and period label of each entry unchanged (hence the
rate-based component `capital * rate` unchanged). -/
theorem C6_bonus_flat_addition (capital : ℚ) (days : ℕ) (current_date : ℚ) :
    (calculate_points capital days true current_date).2.map
        DailyRecord.daily_points
      = (calculate_points capital days false current_date).2.map
          (fun r => r.daily_points + BONUS_DAILY)
    ∧ (calculate_points capital days true current_date).2.map DailyRecord.rate
        = (calculate_points capital days false current_date).2.map
            DailyRecord.rate
    ∧ (calculate_points capital days true current_date).2.map
          DailyRecord.period
        = (calculate_points capital days false current_date).2.map
            DailyRecord.period
    ∧ (calculate_points capital days true current_date).2.map DailyRecord.day
        = (calculate_points capital days false current_date).2.map
            DailyRecord.day
    ∧ (calculate_points capital days true current_date).2.map DailyRecord.date
        = (calculate_points capital days false current_date).2.map
            DailyRecord.date
    ∧ BONUS_DAILY = 10 := by
  rw [calculate_points_eq, calculate_points_eq]
  simp only [List.map_map]
  exact ⟨rfl, rfl, rfl, rfl, rfl, rfl⟩

/-- C2 as stated is false on the code: `day_date <= BOOST_END_DATE`
compares full datetimes, and the schedule dates inherit the time-of-day
of `datetime.now()`.  Concretely, generating a one-day schedule at noon of
the cutoff day (`current_date = BOOST_END_DATE + 1/2`) produces a single
entry whose datetime lies on the cutoff calendar date
(`BOOST_END_DATE ≤ date < BOOST_END_DATE + 1`), yet its multiplier is the
base rate 1.2, not the boosted rate 1.5 the claim requires for a day
falling exactly on the cutoff date. -/
theorem C2_counterexample :
    ((calculate_points 10000 1 false (BOOST_END_DATE + 1 / 2)).2.map
        (fun r => (r.date, r.rate)))
      = [(BOOST_END_DATE + 1 / 2, RATE_BASE)]
    ∧ BOOST_END_DATE ≤ BOOST_END_DATE + 1 / 2
    ∧ BOOST_END_DATE + 1 / 2 < BOOST_END_DATE + 1
    ∧ RATE_BASE ≠ RATE_BOOST := by
  refine ⟨?_, by norm_num, by norm_num, by norm_num [RATE_BASE, RATE_BOOST]⟩
  rw [calculate_points_eq, show List.range 1 = [0] from rfl]
  norm_num [recordAt, dayDate, dayRate, BOOST_END_DATE, RATE_BASE, RATE_BOOST]

/-- C2 (amended): the multiplier of a schedule entry is a pure function of
that entry's full datetime (which carries the generation time-of-day)
relative to the cutoff instant `BOOST_END_DATE` (midnight at the start of
2025-12-11): an entry whose datetime is on or before that instant uses the
boosted rate 1.5, and an entry whose datetime is strictly after it — which
includes any entry on the cutoff calendar date with a time-of-day after
midnight — uses the base rate 1.2. -/
theorem C2_rate_rule (capital : ℚ) (days : ℕ) (is_active : Bool)
    (current_date : ℚ) (r : DailyRecord)
    (hr : r ∈ (calculate_points capital days is_active current_date).2) :
    (r.date ≤ BOOST_END_DATE → r.rate = RATE_BOOST)
    ∧ (BOOST_END_DATE < r.date → r.rate = RATE_BASE) := by
  rw [calculate_points_eq] at hr
  simp only [List.mem_map, List.mem_range] at hr
  obtain ⟨i, -, rfl⟩ := hr
  constructor
  · intro h
    have h' : dayDate current_date i ≤ BOOST_END_DATE := h
    show dayRate current_date i = RATE_BOOST
    rw [dayRate, if_pos h']
  · intro h
    have h' : BOOST_END_DATE < dayDate current_date i := h
    show dayRate current_date i = RATE_BASE
    rw [dayRate, if_neg (not_le.mpr h')]

theorem C2_rate_rule_witness :
    (⟨1, 0, 3 / 2, "加速期", 3 / 2, 3 / 2⟩ : DailyRecord).rate = RATE_BOOST :=
  (C2_rate_rule 1 1 false 0 ⟨1, 0, 3 / 2, "加速期", 3 / 2, 3 / 2⟩
      (by
        rw [calculate_points_eq, show List.range 1 = [0] from rfl]
        norm_num [show List.range 1 = [0] from rfl, recordAt, dayDate,
          dayRate, dayPeriod, dayPoints, cumPoints, BOOST_END_DATE,
          RATE_BOOST])).1
    (by norm_num [BOOST_END_DATE])

/-! ### Field equations for `calculate_roi` -/

theorem calculate_roi_projected_global (my_points : ℚ) (duration_days : ℤ)
    (capital fdv airdrop_pct g : ℚ) :
    (calculate_roi my_points duration_days capital fdv airdrop_pct g).projected_global
      = g * (1 + DAILY_INFLATION) ^ duration_days := rfl

theorem calculate_roi_my_share (my_points : ℚ) (duration_days : ℤ)
    (capital fdv airdrop_pct g : ℚ) :
    (calculate_roi my_points duration_days capital fdv airdrop_pct g).my_share
      = (if 0 < g * (1 + DAILY_INFLATION) ^ duration_days
          then my_points / (g * (1 + DAILY_INFLATION) ^ duration_days)
          else 0) * 100 := rfl

theorem calculate_roi_est_value (my_points : ℚ) (duration_days : ℤ)
    (capital fdv airdrop_pct g : ℚ) :
    (calculate_roi my_points duration_days capital fdv airdrop_pct g).est_value
      = fdv * (airdrop_pct / 100)
        * (if 0 < g * (1 + DAILY_INFLATION) ^ duration_days
            then my_points / (g * (1 + DAILY_INFLATION) ^ duration_days)
            else 0) := rfl

theorem calculate_roi_net_profit (my_points : ℚ) (duration_days : ℤ)
    (capital fdv airdrop_pct g : ℚ) :
    (calculate_roi my_points duration_days capital fdv airdrop_pct g).net_profit
      = (calculate_roi my_points duration_days capital fdv airdrop_pct g).est_value :=
  rfl

theorem calculate_roi_roi (my_points : ℚ) (duration_days : ℤ)
    (capital fdv airdrop_pct g : ℚ) :
    (calculate_roi my_points duration_days capital fdv airdrop_pct g).roi
      = if 0 < capital
          then (calculate_roi my_points duration_days capital fdv airdrop_pct g).est_value
            / capital * 100
          else 0 := rfl

theorem calculate_roi_apy (my_points : ℚ) (duration_days : ℤ)
    (capital fdv airdrop_pct g : ℚ) :
    (calculate_roi my_points duration_days capital fdv airdrop_pct g).apy
      = if 0 < duration_days
          then (calculate_roi my_points duration_days capital fdv airdrop_pct g).roi
            / (duration_days : ℚ) * 365
          else 0 := rfl

/-- C1: for every call to `calculate_roi` with `duration_days ≥ 0`, the
projected network total equals
`current_global * (1 + 0.015) ^ duration_days`, and whenever that
projected total is positive, the estimated airdrop value equals
`fdv * (airdrop_pct / 100) * (my_points / projected_global)` and the
returned net profit equals the estimated value exactly. -/
theorem C1_compound_projection_and_value (my_points : ℚ) (duration_days : ℤ)
    (capital fdv airdrop_pct current_global : ℚ) (hD : 0 ≤ duration_days) :
    (calculate_roi my_points duration_days capital fdv airdrop_pct current_global).projected_global
      = current_global * (1 + DAILY_INFLATION) ^ duration_days
    ∧ (0 < (calculate_roi my_points duration_days capital fdv airdrop_pct current_global).projected_global →
        (calculate_roi my_points duration_days capital fdv airdrop_pct current_global).est_value
          = fdv * (airdrop_pct / 100)
            * (my_points
              / (calculate_roi my_points duration_days capital fdv airdrop_pct current_global).projected_global)
        ∧ (calculate_roi my_points duration_days capital fdv airdrop_pct current_global).net_profit
            = (calculate_roi my_points duration_days capital fdv airdrop_pct current_global).est_value) := by
  refine ⟨rfl, fun h => ⟨?_, rfl⟩⟩
  rw [calculate_roi_projected_global] at h
  rw [calculate_roi_est_value, calculate_roi_projected_global, if_pos h]

theorem C1_compound_projection_and_value_witness :
    (calculate_roi 1 0 1 1 5 1).est_value
      = 1 * (5 / 100) * (1 / (calculate_roi 1 0 1 1 5 1).projected_global)
    ∧ (calculate_roi 1 0 1 1 5 1).net_profit
        = (calculate_roi 1 0 1 1 5 1).est_value :=
  (C1_compound_projection_and_value 1 0 1 1 5 1 (by norm_num)).2
    (by rw [calculate_roi_projected_global, zpow_zero, mul_one]; norm_num)

/-- C5: `calculate_roi` is a total function of its (rational) inputs and
implements the degenerate-case guards: when the projected global total is
`0` it returns share `0` and estimated value, ROI and APY all `0`; the ROI
is `0` when `capital ≤ 0` and otherwise `est_value / capital * 100`; the
APY is `0` when `duration_days ≤ 0` and otherwise
`roi / duration_days * 365`. -/
theorem C5_zero_guards (my_points : ℚ) (duration_days : ℤ)
    (capital fdv airdrop_pct current_global : ℚ) :
    ((calculate_roi my_points duration_days capital fdv airdrop_pct current_global).projected_global = 0 →
        (calculate_roi my_points duration_days capital fdv airdrop_pct current_global).my_share = 0
        ∧ (calculate_roi my_points duration_days capital fdv airdrop_pct current_global).est_value = 0
        ∧ (calculate_roi my_points duration_days capital fdv airdrop_pct current_global).roi = 0
        ∧ (calculate_roi my_points duration_days capital fdv airdrop_pct current_global).apy = 0)
    ∧ (capital ≤ 0 →
        (calculate_roi my_points duration_days capital fdv airdrop_pct current_global).roi = 0)
    ∧ (0 < capital →
        (calculate_roi my_points duration_days capital fdv airdrop_pct current_global).roi
          = (calculate_roi my_points duration_days capital fdv airdrop_pct current_global).est_value
            / capital * 100)
    ∧ (duration_days ≤ 0 →
        (calculate_roi my_points duration_days capital fdv airdrop_pct current_global).apy = 0)
    ∧ (0 < duration_days →
        (calculate_roi my_points duration_days capital fdv airdrop_pct current_global).apy
          = (calculate_roi my_points duration_days capital fdv airdrop_pct current_global).roi
            / (duration_days : ℚ) * 365) := by
  refine ⟨fun h => ?_, fun h => ?_, fun h => ?_, fun h => ?_, fun h => ?_⟩
  · rw [calculate_roi_projected_global] at h
    have hcond : ¬ 0 < current_global * (1 + DAILY_INFLATION) ^ duration_days := by
      rw [h]; exact lt_irrefl 0
    have hshare :
        (calculate_roi my_points duration_days capital fdv airdrop_pct current_global).my_share = 0 := by
      rw [calculate_roi_my_share, if_neg hcond, zero_mul]
    have hest :
        (calculate_roi my_points duration_days capital fdv airdrop_pct current_global).est_value = 0 := by
      rw [calculate_roi_est_value, if_neg hcond, mul_zero]
    have hroi :
        (calculate_roi my_points duration_days capital fdv airdrop_pct current_global).roi = 0 := by
      rw [calculate_roi_roi, hest]
      split
      · rw [zero_div, zero_mul]
      · rfl
    have hapy :
        (calculate_roi my_points duration_days capital fdv airdrop_pct current_global).apy = 0 := by
      rw [calculate_roi_apy, hroi]
      split
      · rw [zero_div, zero_mul]
      · rfl
    exact ⟨hshare, hest, hroi, hapy⟩
  · rw [calculate_roi_roi, if_neg (not_lt.mpr h)]
  · rw [calculate_roi_roi, if_pos h]
  · rw [calculate_roi_apy, if_neg (not_lt.mpr h)]
  · rw [calculate_roi_apy, if_pos h]

theorem C5_zero_guards_witness :
    (calculate_roi 5 3 0 1000000000 5 0).my_share = 0
    ∧ (calculate_roi 5 3 0 1000000000 5 0).est_value = 0
    ∧ (calculate_roi 5 3 0 1000000000 5 0).roi = 0
    ∧ (calculate_roi 5 3 0 1000000000 5 0).apy
        = (calculate_roi 5 3 0 1000000000 5 0).roi / ((3 : ℤ) : ℚ) * 365 := by
  have h := C5_zero_guards 5 3 0 1000000000 5 0
  have hp : (calculate_roi 5 3 0 1000000000 5 0).projected_global = 0 := by
    rw [calculate_roi_projected_global]; exact zero_mul _
  exact ⟨(h.1 hp).1, (h.1 hp).2.1, (h.1 hp).2.2.1, h.2.2.2.2 (by norm_num)⟩

/-- C9: whenever the projected global total is positive, the `my_share`
field of the dictionary returned by `calculate_roi` is the share fraction
`my_points / projected_global` multiplied by 100 (a percentage), whereas
the estimated-value computation uses the unscaled fraction — so the
`my_share` field is exactly 100 times the fraction used in the estimated
value. -/
theorem C9_my_share_is_percent (my_points : ℚ) (duration_days : ℤ)
    (capital fdv airdrop_pct current_global : ℚ)
    (h : 0 < (calculate_roi my_points duration_days capital fdv airdrop_pct current_global).projected_global) :
    (calculate_roi my_points duration_days capital fdv airdrop_pct current_global).my_share
      = my_points
        / (calculate_roi my_points duration_days capital fdv airdrop_pct current_global).projected_global
        * 100
    ∧ (calculate_roi my_points duration_days capital fdv airdrop_pct current_global).est_value
      = fdv * (airdrop_pct / 100)
        * (my_points
          / (calculate_roi my_points duration_days capital fdv airdrop_pct current_global).projected_global)
    ∧ (calculate_roi my_points duration_days capital fdv airdrop_pct current_global).my_share
      = 100
        * (my_points
          / (calculate_roi my_points duration_days capital fdv airdrop_pct current_global).projected_global) := by
  rw [calculate_roi_projected_global] at h
  refine ⟨?_, ?_, ?_⟩
  · rw [calculate_roi_my_share, calculate_roi_projected_global, if_pos h]
  · rw [calculate_roi_est_value, calculate_roi_projected_global, if_pos h]
  · rw [calculate_roi_my_share, calculate_roi_projected_global, if_pos h,
      mul_comm]

theorem C9_my_share_is_percent_witness :
    (calculate_roi 1 0 1 1 5 1).my_share
      = 1 / (calculate_roi 1 0 1 1 5 1).projected_global * 100
    ∧ (calculate_roi 1 0 1 1 5 1).my_share
        = 100 * (1 / (calculate_roi 1 0 1 1 5 1).projected_global) := by
  have h := C9_my_share_is_percent 1 0 1 1 5 1
    (by rw [calculate_roi_projected_global, zpow_zero, mul_one]; norm_num)
  exact ⟨h.1, h.2.2⟩

/-- C7 is false on the code as stated: with `my_points = 0` (all other
inputs fixed and well inside the UI ranges), the share is `0`, so the
estimated value and the ROI are identical for the strictly larger FDV —
not strictly larger.  Moreover, with a negative starting network estimate
the projected network total strictly decreases as the duration grows, so
the projection is not monotone in duration unconditionally. -/
theorem C7_counterexample :
    (1 : ℚ) < 2
    ∧ (calculate_roi 0 1 1 1 5 1).est_value = (calculate_roi 0 1 1 2 5 1).est_value
    ∧ (calculate_roi 0 1 1 1 5 1).roi = (calculate_roi 0 1 1 2 5 1).roi
    ∧ (calculate_roi 0 1 1 1 5 (-1)).projected_global
        < (calculate_roi 0 0 1 1 5 (-1)).projected_global := by
  have hest : ∀ f : ℚ, (calculate_roi 0 1 1 f 5 1).est_value = 0 := by
    intro f
    rw [calculate_roi_est_value]
    simp
  have hroi : ∀ f : ℚ, (calculate_roi 0 1 1 f 5 1).roi = 0 := by
    intro f
    rw [calculate_roi_roi, hest f]
    simp
  refine ⟨by norm_num, by rw [hest, hest], by rw [hroi, hroi], ?_⟩
  rw [calculate_roi_projected_global, calculate_roi_projected_global]
  norm_num [DAILY_INFLATION, zpow_one]

/-- C7 (amended): with all other inputs fixed and `my_points`,
`airdrop_pct` and the starting network estimate all positive, a strictly
larger FDV yields a strictly larger estimated value, and (when in addition
`capital` is positive) a strictly larger ROI; the projected network total
is monotonically non-decreasing in duration whenever the starting estimate
is non-negative, and strictly positive whenever the starting estimate is
positive. -/
theorem C7_monotonicity (my_points : ℚ) (d d1 d2 : ℤ)
    (capital fdv1 fdv2 airdrop_pct current_global : ℚ) :
    (0 < my_points → 0 < airdrop_pct → 0 < current_global → fdv1 < fdv2 →
        (calculate_roi my_points d capital fdv1 airdrop_pct current_global).est_value
          < (calculate_roi my_points d capital fdv2 airdrop_pct current_global).est_value
        ∧ (0 < capital →
            (calculate_roi my_points d capital fdv1 airdrop_pct current_global).roi
              < (calculate_roi my_points d capital fdv2 airdrop_pct current_global).roi))
    ∧ (0 ≤ current_global → d1 ≤ d2 →
        (calculate_roi my_points d1 capital fdv1 airdrop_pct current_global).projected_global
          ≤ (calculate_roi my_points d2 capital fdv1 airdrop_pct current_global).projected_global)
    ∧ (0 < current_global →
        0 < (calculate_roi my_points d capital fdv1 airdrop_pct current_global).projected_global) := by
  have hb0 : (0 : ℚ) < 1 + DAILY_INFLATION := by norm_num [DAILY_INFLATION]
  have hb1 : (1 : ℚ) ≤ 1 + DAILY_INFLATION := by norm_num [DAILY_INFLATION]
  refine ⟨fun hmp hpct hg hf => ?_, fun hg hd => ?_, fun hg => ?_⟩
  · have hproj : 0 < current_global * (1 + DAILY_INFLATION) ^ d :=
      mul_pos hg (zpow_pos hb0 d)
    have hshare : 0 < my_points / (current_global * (1 + DAILY_INFLATION) ^ d) :=
      div_pos hmp hproj
    have hc : (0 : ℚ) < airdrop_pct / 100 := by positivity
    have hest :
        (calculate_roi my_points d capital fdv1 airdrop_pct current_global).est_value
          < (calculate_roi my_points d capital fdv2 airdrop_pct current_global).est_value := by
      rw [calculate_roi_est_value, calculate_roi_est_value, if_pos hproj]
      exact mul_lt_mul_of_pos_right (mul_lt_mul_of_pos_right hf hc) hshare
    refine ⟨hest, fun hcap => ?_⟩
    rw [calculate_roi_roi, calculate_roi_roi, if_pos hcap, if_pos hcap,
      div_eq_mul_inv, div_eq_mul_inv]
    exact mul_lt_mul_of_pos_right
      (mul_lt_mul_of_pos_right hest (inv_pos.mpr hcap))
      (show (0 : ℚ) < 100 by norm_num)
  · rw [calculate_roi_projected_global, calculate_roi_projected_global]
    exact mul_le_mul_of_nonneg_left (zpow_le_zpow_right₀ hb1 hd) hg
  · rw [calculate_roi_projected_global]
    exact mul_pos hg (zpow_pos hb0 d)

theorem C7_monotonicity_witness :
    (calculate_roi 1 0 1 1 5 1).est_value < (calculate_roi 1 0 1 2 5 1).est_value
    ∧ (calculate_roi 1 0 1 1 5 1).roi < (calculate_roi 1 0 1 2 5 1).roi
    ∧ (calculate_roi 1 0 1 1 5 1).projected_global
        ≤ (calculate_roi 1 1 1 1 5 1).projected_global
    ∧ 0 < (calculate_roi 1 0 1 1 5 1).projected_global := by
  have h := C7_monotonicity 1 0 0 1 1 1 2 5 1
  have h1 := h.1 (by norm_num) (by norm_num) (by norm_num) (by norm_num)
  exact ⟨h1.1, h1.2 (by norm_num), h.2.1 (by norm_num) (by norm_num),
    h.2.2 (by norm_num)⟩

/-- C8: on each of the failure outcomes of the remote fetch — timeout,
non-2xx HTTP status, malformed payload / any other exception —
`fetch_global_points` returns the fixed fallback constant `500_000_000`
(it is a total function of the fetch outcome, so no exception escapes to
the caller). -/
theorem C8_failure_fallback :
    fetch_global_points FetchOutcome.timeout = 500000000
    ∧ fetch_global_points FetchOutcome.httpError = 500000000
    ∧ fetch_global_points FetchOutcome.malformed = 500000000 :=
  ⟨rfl, rfl, rfl⟩

/-- C10: on a successful 2xx JSON response, `fetch_global_points` returns
`1.3` times the sum over the returned `data` entries of each entry's
`points` field divided by `1_000_000`; an entry lacking a `points` field
contributes `0` (prepending such an entry leaves the estimate unchanged);
and an empty `data` list yields an estimate of `0`, which is not the
fallback constant. -/
theorem C10_success_estimate (data : List (Option ℚ)) :
    fetch_global_points (FetchOutcome.success data)
      = 13 / 10 * ((data.map (fun item => item.getD 0 / 1000000)).sum)
    ∧ fetch_global_points (FetchOutcome.success (none :: data))
        = fetch_global_points (FetchOutcome.success data)
    ∧ fetch_global_points (FetchOutcome.success []) = 0
    ∧ (0 : ℚ) ≠ 500000000 := by
  refine ⟨mul_comm _ _, ?_, by simp [fetch_global_points], by norm_num⟩
  simp [fetch_global_points]

end StandX
